import Mathlib

/-!
A shallow embedding of the prompt-assembly and quality-audit core of
`src/app.py` (Template Assembler `generate_prompt` and Quality Auditor
`score_inputs`), together with theorems settling the frozen claims.

Python strings are modelled as Lean `String` (a list of characters);
Python `dict` field-value maps as `String → Option String`, where `none`
covers both an absent key and a `None` value (both are falsy in the
source's `inputs.get(field) or ...` chains).  `float` weights are
modelled as exact rationals `ℚ`, and Python's `round(v, 1)` as rounding
`10*v` to the nearest integer (no representable tie arises for the
reachable score values).  `str.lower` is modelled on the ASCII range
plus the Latin-1 uppercase block (which covers every character occurring
in the source's keyword lists); the regex `\w` class is modelled as
ASCII alphanumerics plus underscore.
-/

namespace PromptApp

/-- Python whitespace characters recognised by `str.strip` (ASCII range). -/
def pyIsSpace (c : Char) : Bool :=
  c == ' ' || c == '\t' || c == '\n' || c == '\r' || c == '\x0b' || c == '\x0c'

/-- A character of the regex class `\w` (ASCII model): alphanumeric or underscore. -/
def isWordChar (c : Char) : Bool :=
  c.isAlpha || c.isDigit || c == '_'

/-- `str.lower`, modelled on ASCII `A`-`Z` and the Latin-1 uppercase block
`À`-`Þ` (minus `×`); every other character is left unchanged. -/
def charLower (c : Char) : Char :=
  if (65 ≤ c.toNat ∧ c.toNat ≤ 90) ∨
     (192 ≤ c.toNat ∧ c.toNat ≤ 222 ∧ c.toNat ≠ 215) then
    Char.ofNat (c.toNat + 32)
  else c

def lowerStr (s : String) : String :=
  ⟨s.data.map charLower⟩

/-- `str.strip`: drop leading and trailing whitespace. -/
def stripL (l : List Char) : List Char :=
  ((l.dropWhile pyIsSpace).reverse.dropWhile pyIsSpace).reverse

def pyStrip (s : String) : String :=
  ⟨stripL s.data⟩

/-- `pat` is a prefix of `l` (character lists). -/
def isPrefixL : List Char → List Char → Bool
  | [], _ => true
  | _ :: _, [] => false
  | a :: as, b :: bs => a == b && isPrefixL as bs

/-- Python's substring test `pat in l`. -/
def isSubL (pat : List Char) : List Char → Bool
  | [] => pat.isEmpty
  | c :: rest => isPrefixL pat (c :: rest) || isSubL pat rest

/-- Scanner for Python's `str.count` (non-overlapping occurrences, left to
right).  The first argument is fuel, instantiated with the length of the
scanned list so that the recursion is structural; one unit of fuel is
spent per scanned position, and a match skips `pat.length` positions, so
the list always empties before the fuel does. -/
def countSubGo (pat : List Char) : Nat → List Char → Nat
  | 0, _ => 0
  | _ + 1, [] => 0
  | fuel + 1, c :: rest =>
    if pat ≠ [] ∧ isPrefixL pat (c :: rest) = true then
      1 + countSubGo pat fuel (rest.drop (pat.length - 1))
    else
      countSubGo pat fuel rest

/-- Python's `str.count`: number of non-overlapping occurrences, scanning
from the left. -/
def countSub (pat : List Char) (l : List Char) : Nat :=
  countSubGo pat l.length l

/-- The token scan of `re.findall(r"\w+|\S", text)`: a maximal run of word
characters counts as one token (counted at its first character, tracked by
the `inWord` flag), any other non-space character counts as one token,
whitespace separates. -/
def lenTokensGo : Bool → List Char → Nat
  | _, [] => 0
  | inWord, c :: rest =>
    if isWordChar c then (if inWord then 0 else 1) + lenTokensGo true rest
    else if pyIsSpace c then lenTokensGo false rest
    else 1 + lenTokensGo false rest

def lenTokensL (l : List Char) : Nat :=
  lenTokensGo false l

/-- `_len_tokens` from the source: rough token count. -/
def len_tokens (text : String) : Nat :=
  if text = "" then 0 else lenTokensL text.data

/-- `_has_any` from the source: some keyword occurs, case-insensitively. -/
def has_any (text : String) (keywords : List String) : Bool :=
  if text = "" then false
  else keywords.any (fun k => isSubL (lowerStr k).data (lowerStr text).data)

/-- `_count_any` from the source: total occurrence count, case-insensitively. -/
def count_any (text : String) (keywords : List String) : Nat :=
  if text = "" then 0
  else (keywords.map (fun k => countSub (lowerStr k).data (lowerStr text).data)).sum

/-- A field-value mapping; `none` models both an absent key and a `None`
value (both falsy in the source's lookup chains). -/
abbrev InputMap := String → Option String

/-- Python's `a or b` on an optional string and a fallback. -/
def pyOrStr (a : Option String) (b : Option String) : Option String :=
  match a with
  | some s => if s = "" then b else some s
  | none => b

/-- The source's `inputs.get(k1) or inputs.get(k2) or ... or ""` chain. -/
def chainGet (keys : List String) (m : InputMap) : Option String :=
  keys.foldr (fun k acc => pyOrStr (m k) acc) (some "")

/-- Slot resolution: first truthy alias, stripped of whitespace. -/
def resolveSlot (keys : List String) (m : InputMap) : String :=
  pyStrip ((chainGet keys m).getD "")

def objKeys : List String := ["Objective"]
def ctxKeys : List String := ["Context", "Insight/Context"]
def consKeys : List String := ["Constraints", "Capacity/Constraints", "Restrictions"]
def exKeys : List String := ["Examples"]
def fmtKeys : List String := ["Output Format"]

-- ---------------------------
-- Framework templates (Template Assembler)
-- ---------------------------

def FRAMEWORKS : List (String × List String) :=
  [("CO-STAR", ["Context", "Objective", "Style", "Tone", "Audience", "Response"]),
   ("CRISPE", ["Capacity/Constraints", "Role", "Insight/Context", "Steps", "Persona", "Evaluation"]),
   ("CLEAR", ["Context", "Language", "Examples", "Analysis/Thinking Style", "Restrictions"]),
   ("Basic (Context-Objective-Constraints-Examples-Output)",
    ["Context", "Objective", "Constraints", "Examples", "Output Format"])]

/-- `generate_prompt` from the source.  The Python `FRAMEWORKS[framework]`
dict access raises `KeyError` on an unknown identifier; this is modelled
as `none`, while a successful render is `some document`. -/
def generate_prompt (framework : String) (inputs : InputMap) : Option String :=
  match FRAMEWORKS.lookup framework with
  | none => none
  | some fields =>
    some (String.intercalate "\n\n" (fields.map (fun field =>
      let val := pyStrip ((inputs field).getD "")
      let val2 := if val = "" then "Not specified" else val
      "**" ++ field ++ ":** " ++ val2)))

-- ---------------------------
-- Scoring & Rubric (Quality Auditor)
-- ---------------------------

def RUBRIC_WEIGHTS : List (String × ℚ) :=
  [("objective_present", 1.5),
   ("context_present", 1.0),
   ("constraints_present", 1.0),
   ("examples_present", 0.8),
   ("output_format_present", 0.7),
   ("objective_quality", 1.2),
   ("constraints_quality", 1.0),
   ("examples_quality", 0.8),
   ("format_quality", 0.8),
   ("ambiguity_low", 1.0)]

def weightOf (k : String) : ℚ :=
  (RUBRIC_WEIGHTS.lookup k).getD 0

/-- `max_score = sum(RUBRIC_WEIGHTS.values())`. -/
def max_score : ℚ :=
  (RUBRIC_WEIGHTS.map (fun kv => kv.2)).sum

/-- The ten boolean checks of the auditor (the source's `checks` dict,
made a record as its key set is fixed). -/
structure Checks where
  objective_present : Bool
  context_present : Bool
  constraints_present : Bool
  examples_present : Bool
  output_format_present : Bool
  objective_quality : Bool
  constraints_quality : Bool
  examples_quality : Bool
  format_quality : Bool
  ambiguity_low : Bool
deriving DecidableEq

/-- `checks.items()` in the dict's insertion order. -/
def checksItems (c : Checks) : List (String × Bool) :=
  [("objective_present", c.objective_present),
   ("context_present", c.context_present),
   ("constraints_present", c.constraints_present),
   ("examples_present", c.examples_present),
   ("output_format_present", c.output_format_present),
   ("objective_quality", c.objective_quality),
   ("constraints_quality", c.constraints_quality),
   ("examples_quality", c.examples_quality),
   ("format_quality", c.format_quality),
   ("ambiguity_low", c.ambiguity_low)]

/-- `raw = sum(RUBRIC_WEIGHTS[k] for k, v in checks.items() if v)`. -/
def rawScore (c : Checks) : ℚ :=
  (((checksItems c).filter (fun kv => kv.2)).map (fun kv => weightOf kv.1)).sum

/-- Python's `round(v, 1)`: round to the nearest tenth.  (Python rounds
half to even; no representable tie occurs for the auditor's score values,
so nearest-integer rounding of `10*v` is faithful.) -/
def pyRound1 (v : ℚ) : ℚ :=
  ((round (10 * v) : ℤ) : ℚ) / 10

/-- `score_10 = round(10 * raw / max_score, 1)`. -/
def scoreChecks (c : Checks) : ℚ :=
  pyRound1 (10 * rawScore c / max_score)

def action_verbs : List String :=
  ["analyze", "summarize", "compare", "design", "draft", "generate",
   "evaluate", "classify", "extract"]

def guardrail_terms : List String :=
  ["cite", "do not", "avoid", "limit", "word", "tone", "comply", "policy",
   "no chain-of-thought", "refuse"]

/-- The marker list exactly as the source file has it: the fifth entry is
the mojibake character sequence U+201A U+00DC U+00ED (the bytes of the
arrow in "context → response" after an encoding corruption). -/
def example_markers : List String :=
  ["input:", "output:", "example", "shot", "context ‚Üí response",
   "instruction:", "response:"]

def json_markers : List String :=
  ["\x7b", "\x7d", "json", "keys", "schema"]

def section_markers : List String :=
  ["bullet", "markdown", "sections", "executive summary", "findings",
   "recommendations"]

def vague_terms : List String :=
  ["tbd", "etc.", "and so on", "something like", "roughly", "maybe", "as needed"]

/-- The ten checks computed from the five resolved slot texts, exactly as
in `score_inputs`. -/
def mkChecks (obj ctx cons ex fmt : String) : Checks :=
  { objective_present := !(obj == ""),
    context_present := !(ctx == ""),
    constraints_present := !(cons == ""),
    examples_present := !(ex == ""),
    output_format_present := !(fmt == ""),
    objective_quality := decide (8 ≤ len_tokens obj) && has_any obj action_verbs,
    constraints_quality := has_any cons guardrail_terms || decide (6 ≤ len_tokens cons),
    examples_quality :=
      has_any ex example_markers ||
        (decide (2 ≤ count_any ex [":"]) && decide (12 ≤ len_tokens ex)),
    format_quality := has_any fmt (json_markers ++ section_markers),
    ambiguity_low := !(has_any (obj ++ " " ++ ctx) vague_terms) }

def sugObjectiveMissing : String :=
  "Add a clear objective starting with a strong verb (e.g., *Analyze*, *Summarize*, *Design*)."
def sugObjectiveQuality : String :=
  "Make the objective more specific (scope, data, success criteria)."
def sugContextMissing : String :=
  "Provide domain, audience, and key background constraints in **Context**."
def sugConstraintsMissing : String :=
  "Add **Constraints** (tone, word/section limits, must/avoid, compliance/guardrails)."
def sugConstraintsQuality : String :=
  "Tighten **Constraints**: include style (e.g., *professional*), limits (e.g., *‚â§200 words*), and guardrails (*no chain-of-thought*, *cite sources*)."
def sugExamplesMissing : String :=
  "Add 1‚Äì2 **few-shot Examples** (clear *Input ‚Üí Output* pairs)."
def sugExamplesQuality : String :=
  "Improve examples: label **Input:** and **Output:** and show the ideal structure."
def sugFormatMissing : String :=
  "Specify an **Output Format** (e.g., bullet points or JSON with required keys)."
def sugFormatQuality : String :=
  "Refine format: define JSON keys or markdown sections (Executive Summary, Findings, Recommendations)."
def sugAmbiguity : String :=
  "Remove vague phrases (e.g., *TBD, etc.*) and state exact scope/assumptions."

/-- The suggestion list built from the checks, in the source's order. -/
def suggestionsFor (c : Checks) : List String :=
  (if !c.objective_present then [sugObjectiveMissing]
   else if !c.objective_quality then [sugObjectiveQuality] else []) ++
  (if !c.context_present then [sugContextMissing] else []) ++
  (if !c.constraints_present then [sugConstraintsMissing]
   else if !c.constraints_quality then [sugConstraintsQuality] else []) ++
  (if !c.examples_present then [sugExamplesMissing]
   else if !c.examples_quality then [sugExamplesQuality] else []) ++
  (if !c.output_format_present then [sugFormatMissing]
   else if !c.format_quality then [sugFormatQuality] else []) ++
  (if !c.ambiguity_low then [sugAmbiguity] else [])

structure AuditResult where
  score_out_of_10 : ℚ
  checks : Checks
  suggestions : List String

/-- `score_inputs` from the source: the Quality Auditor. -/
def score_inputs (m : InputMap) : AuditResult :=
  let ctx := resolveSlot ctxKeys m
  let obj := resolveSlot objKeys m
  let cons := resolveSlot consKeys m
  let ex := resolveSlot exKeys m
  let fmt := resolveSlot fmtKeys m
  let c := mkChecks obj ctx cons ex fmt
  { score_out_of_10 := scoreChecks c,
    checks := c,
    suggestions := suggestionsFor c }

/-- Fault-capable variant of slot resolution: calling `.strip()` on a
`None` value would raise `AttributeError`; the `or ""` default in the
source makes that branch unreachable. -/
def stripV : Option String → Except String String
  | none => Except.error "AttributeError"
  | some s => Except.ok (pyStrip s)

def resolveSlotE (keys : List String) (m : InputMap) : Except String String :=
  stripV (chainGet keys m)

/-- `score_inputs` with the Python-level fault of `.strip()` on `None`
made explicit, statement by statement in the source's order. -/
def score_inputsE (m : InputMap) : Except String AuditResult :=
  match resolveSlotE ctxKeys m with
  | Except.error e => Except.error e
  | Except.ok ctx =>
    match resolveSlotE objKeys m with
    | Except.error e => Except.error e
    | Except.ok obj =>
      match resolveSlotE consKeys m with
      | Except.error e => Except.error e
      | Except.ok cons =>
        match resolveSlotE exKeys m with
        | Except.error e => Except.error e
        | Except.ok ex =>
          match resolveSlotE fmtKeys m with
          | Except.error e => Except.error e
          | Except.ok fmt =>
            let c := mkChecks obj ctx cons ex fmt
            Except.ok
              { score_out_of_10 := scoreChecks c,
                checks := c,
                suggestions := suggestionsFor c }

-- ---------------------------
-- Spec-side definitions (for the refinement claims)
-- ---------------------------

/-- The spec's Step 4 weighted sum, written from the Rubric Weight Table
wording: the sum of the fixed constant weights of the true checks. -/
def specWeightSum (c : Checks) : ℚ :=
  cond c.objective_present 1.5 0 + cond c.context_present 1.0 0 +
  cond c.constraints_present 1.0 0 + cond c.examples_present 0.8 0 +
  cond c.output_format_present 0.7 0 + cond c.objective_quality 1.2 0 +
  cond c.constraints_quality 1.0 0 + cond c.examples_quality 0.8 0 +
  cond c.format_quality 0.8 0 + cond c.ambiguity_low 1.0 0

/-- The spec's Step 4 aggregation: `round(10 × truesum / 10.3, 1)`. -/
def specScore (c : Checks) : ℚ :=
  pyRound1 (10 * specWeightSum c / 10.3)

/-- The spec's marker list for `examples_quality`, with a genuine arrow
in "context → response" as the spec words it. -/
def spec_example_markers : List String :=
  ["input:", "output:", "example", "shot", "context → response",
   "instruction:", "response:"]

-- Concrete maps used by witnesses.

def emptyMap : InputMap := fun _ => none

def arrowExampleMap : InputMap :=
  fun k => if k = "Examples" then some "context → response" else none

def whitespaceBlockMap : InputMap :=
  fun k =>
    if k = "Constraints" then some " "
    else if k = "Capacity/Constraints" then some "Be concise and cite sources"
    else if k = "Context" then some "\t"
    else if k = "Insight/Context" then some "Finance domain background"
    else none

def agreeMapA : InputMap :=
  fun k =>
    if k = "Context" then some "Quarterly report"
    else if k = "Examples" then some "sample A"
    else none

def agreeMapB : InputMap :=
  fun k =>
    if k = "Context" then some "Quarterly report"
    else if k = "Examples" then some "sample B"
    else none

/-- A field-value mapping that makes every one of the ten checks true. -/
def fullMap : InputMap :=
  fun k =>
    if k = "Objective" then
      some "Analyze the quarterly sales data and summarize the top three trends"
    else if k = "Context" then
      some "Domain: Healthcare, Audience: Medical students"
    else if k = "Constraints" then
      some "Respond in 200 words, professional tone, do not speculate, cite sources"
    else if k = "Examples" then
      some "Input: a question Output: a short answer"
    else if k = "Output Format" then
      some "JSON with keys: summary, recommendations"
    else none

/-- All ten checks true. -/
def allTrue : Checks :=
  ⟨true, true, true, true, true, true, true, true, true, true⟩

-- ---------------------------
-- Helper lemmas
-- ---------------------------

lemma weightOf_objective_present : weightOf "objective_present" = 1.5 := rfl

lemma weightOf_context_present : weightOf "context_present" = 1.0 := rfl

lemma weightOf_constraints_present : weightOf "constraints_present" = 1.0 := rfl

lemma weightOf_examples_present : weightOf "examples_present" = 0.8 := rfl

lemma weightOf_output_format_present : weightOf "output_format_present" = 0.7 := rfl

lemma weightOf_objective_quality : weightOf "objective_quality" = 1.2 := rfl

lemma weightOf_constraints_quality : weightOf "constraints_quality" = 1.0 := rfl

lemma weightOf_examples_quality : weightOf "examples_quality" = 0.8 := rfl

lemma weightOf_format_quality : weightOf "format_quality" = 0.8 := rfl

lemma weightOf_ambiguity_low : weightOf "ambiguity_low" = 1.0 := rfl

lemma max_score_eq : max_score = 9.8 := by
  simp only [max_score, RUBRIC_WEIGHTS, List.map_cons, List.map_nil, List.sum_cons,
    List.sum_nil]
  norm_num

lemma rawAux (k : String) (b : Bool) (rest : List (String × Bool)) :
    ((((k, b) :: rest).filter (fun kv => kv.2)).map (fun kv => weightOf kv.1)).sum
      = cond b (weightOf k) 0
        + ((rest.filter (fun kv => kv.2)).map (fun kv => weightOf kv.1)).sum := by
  cases b <;> simp [List.filter_cons]

/-- The source's filtered dict-sum coincides with the spec's per-check
conditional sum. -/
lemma rawScore_eq_spec (c : Checks) : rawScore c = specWeightSum c := by
  simp only [rawScore, checksItems, rawAux, List.filter_nil, List.map_nil, List.sum_nil,
    add_zero, specWeightSum, weightOf_objective_present, weightOf_context_present,
    weightOf_constraints_present, weightOf_examples_present, weightOf_output_format_present,
    weightOf_objective_quality, weightOf_constraints_quality, weightOf_examples_quality,
    weightOf_format_quality, weightOf_ambiguity_low]
  ring

lemma cond_w_nonneg (b : Bool) (w : ℚ) (h : 0 ≤ w) : 0 ≤ cond b w 0 := by
  cases b <;> simp [h]

lemma cond_w_le (b : Bool) (w : ℚ) (h : 0 ≤ w) : cond b w 0 ≤ w := by
  cases b <;> simp [h]

lemma specWeightSum_nonneg (c : Checks) : 0 ≤ specWeightSum c := by
  unfold specWeightSum
  have h1 := cond_w_nonneg c.objective_present (1.5 : ℚ) (by norm_num)
  have h2 := cond_w_nonneg c.context_present (1.0 : ℚ) (by norm_num)
  have h3 := cond_w_nonneg c.constraints_present (1.0 : ℚ) (by norm_num)
  have h4 := cond_w_nonneg c.examples_present (0.8 : ℚ) (by norm_num)
  have h5 := cond_w_nonneg c.output_format_present (0.7 : ℚ) (by norm_num)
  have h6 := cond_w_nonneg c.objective_quality (1.2 : ℚ) (by norm_num)
  have h7 := cond_w_nonneg c.constraints_quality (1.0 : ℚ) (by norm_num)
  have h8 := cond_w_nonneg c.examples_quality (0.8 : ℚ) (by norm_num)
  have h9 := cond_w_nonneg c.format_quality (0.8 : ℚ) (by norm_num)
  have h10 := cond_w_nonneg c.ambiguity_low (1.0 : ℚ) (by norm_num)
  linarith

lemma specWeightSum_le (c : Checks) : specWeightSum c ≤ 9.8 := by
  unfold specWeightSum
  have h1 := cond_w_le c.objective_present (1.5 : ℚ) (by norm_num)
  have h2 := cond_w_le c.context_present (1.0 : ℚ) (by norm_num)
  have h3 := cond_w_le c.constraints_present (1.0 : ℚ) (by norm_num)
  have h4 := cond_w_le c.examples_present (0.8 : ℚ) (by norm_num)
  have h5 := cond_w_le c.output_format_present (0.7 : ℚ) (by norm_num)
  have h6 := cond_w_le c.objective_quality (1.2 : ℚ) (by norm_num)
  have h7 := cond_w_le c.constraints_quality (1.0 : ℚ) (by norm_num)
  have h8 := cond_w_le c.examples_quality (0.8 : ℚ) (by norm_num)
  have h9 := cond_w_le c.format_quality (0.8 : ℚ) (by norm_num)
  have h10 := cond_w_le c.ambiguity_low (1.0 : ℚ) (by norm_num)
  linarith

lemma round_mono_q {x y : ℚ} (h : x ≤ y) : round x ≤ round y := by
  rw [round_eq, round_eq]
  exact Int.floor_mono (by linarith)

lemma pyRound1_mono {x y : ℚ} (h : x ≤ y) : pyRound1 x ≤ pyRound1 y := by
  unfold pyRound1
  have h2 : round (10 * x) ≤ round (10 * y) := round_mono_q (by linarith)
  have h3 : ((round (10 * x) : ℤ) : ℚ) ≤ ((round (10 * y) : ℤ) : ℚ) := by exact_mod_cast h2
  linarith

lemma pyRound1_eq_of (v : ℚ) (k : ℤ) (h1 : (k : ℚ) ≤ 10 * v + 1 / 2)
    (h2 : 10 * v + 1 / 2 < (k : ℚ) + 1) : pyRound1 v = (k : ℚ) / 10 := by
  unfold pyRound1
  have hr : round (10 * v) = k := by
    rw [round_eq]
    apply Int.floor_eq_iff.mpr
    constructor
    · exact h1
    · linarith
  rw [hr]

lemma pyRound1_bounds {v : ℚ} (h0 : 0 ≤ v) (h1 : v ≤ 10) :
    0 ≤ pyRound1 v ∧ pyRound1 v ≤ 10 ∧ ∃ k : ℤ, pyRound1 v = (k : ℚ) / 10 := by
  have hk0 : (0 : ℤ) ≤ round (10 * v) := by
    have h := round_mono_q (show (0 : ℚ) ≤ 10 * v by linarith)
    rwa [round_zero] at h
  have hk1 : round (10 * v) ≤ 100 := by
    have h : round (10 * v) ≤ round (((100 : ℤ) : ℚ)) := round_mono_q (by push_cast; linarith)
    rwa [round_intCast] at h
  unfold pyRound1
  refine ⟨?_, ?_, ⟨round (10 * v), rfl⟩⟩
  · apply div_nonneg _ (by norm_num)
    exact_mod_cast hk0
  · rw [div_le_iff (by norm_num : (0 : ℚ) < 10)]
    have h : ((round (10 * v) : ℤ) : ℚ) ≤ 100 := by exact_mod_cast hk1
    linarith

lemma rawScore_nonneg (c : Checks) : 0 ≤ rawScore c := by
  rw [rawScore_eq_spec]
  exact specWeightSum_nonneg c

lemma rawScore_le (c : Checks) : rawScore c ≤ 9.8 := by
  rw [rawScore_eq_spec]
  exact specWeightSum_le c

lemma scoreChecks_bounds (c : Checks) :
    0 ≤ scoreChecks c ∧ scoreChecks c ≤ 10 ∧ ∃ k : ℤ, scoreChecks c = (k : ℚ) / 10 := by
  unfold scoreChecks
  apply pyRound1_bounds
  · rw [max_score_eq]
    have := rawScore_nonneg c
    positivity
  · rw [max_score_eq, div_le_iff (by norm_num : (0 : ℚ) < 9.8)]
    have := rawScore_le c
    linarith

lemma scoreChecks_le_of_raw {c c' : Checks} (h : rawScore c ≤ rawScore c') :
    scoreChecks c ≤ scoreChecks c' := by
  unfold scoreChecks
  apply pyRound1_mono
  rw [max_score_eq]
  have h98 : (0 : ℚ) < 9.8 := by norm_num
  exact (div_le_div_right h98).mpr (by linarith)

lemma chainGet_eq_some (keys : List String) (m : InputMap) :
    ∃ s, chainGet keys m = some s := by
  induction keys with
  | nil => exact ⟨"", rfl⟩
  | cons k ks ih =>
    obtain ⟨s, hs⟩ := ih
    have hstep : chainGet (k :: ks) m = pyOrStr (m k) (chainGet ks m) := rfl
    cases hk : m k with
    | none => exact ⟨s, by rw [hstep, hk, hs]; rfl⟩
    | some v =>
      by_cases hv : v = ""
      · exact ⟨s, by rw [hstep, hk, hs]; simp [pyOrStr, hv]⟩
      · exact ⟨v, by rw [hstep, hk]; simp [pyOrStr, hv]⟩

lemma resolveSlotE_ok (keys : List String) (m : InputMap) :
    resolveSlotE keys m = Except.ok (resolveSlot keys m) := by
  obtain ⟨s, hs⟩ := chainGet_eq_some keys m
  simp [resolveSlotE, resolveSlot, stripV, hs]

lemma pyStrip_eq_empty_of_space (s : String) (h : ∀ c ∈ s.data, pyIsSpace c = true) :
    pyStrip s = "" := by
  unfold pyStrip stripL
  have hd : s.data.dropWhile pyIsSpace = [] :=
    List.dropWhile_eq_nil_iff.mpr (fun x hx => h x hx)
  rw [hd]
  rfl

-- ---------------------------
-- Claim theorems
-- ---------------------------

/-- Claim C1, counterexample: at the mapping `fullMap` every check is true,
the auditor returns score 10, but the claimed formula with normalization
denominator 10.3 gives 9.5 — the ten listed weights actually sum to 9.8,
not 10.3. -/
theorem c1_score_formula_counterexample :
    (score_inputs fullMap).score_out_of_10 ≠ specScore ((score_inputs fullMap).checks) := by
  have hck : (score_inputs fullMap).checks = allTrue := by decide
  have hp : (score_inputs fullMap).score_out_of_10
      = scoreChecks ((score_inputs fullMap).checks) := rfl
  rw [hp, hck]
  have hsw : specWeightSum allTrue = 9.8 := by
    norm_num [specWeightSum, allTrue]
  have h1 : scoreChecks allTrue = 10 := by
    unfold scoreChecks
    rw [rawScore_eq_spec, hsw, max_score_eq]
    have e : (10 : ℚ) * 9.8 / 9.8 = 10 := by norm_num
    rw [e, pyRound1_eq_of 10 100 (by norm_num) (by norm_num)]
    norm_num
  have h2 : specScore allTrue = 9.5 := by
    unfold specScore
    rw [hsw, pyRound1_eq_of (10 * (9.8 : ℚ) / 10.3) 95 (by norm_num) (by norm_num)]
    norm_num
  rw [h1, h2]
  norm_num

/-- Claim C1 (amended): the auditor's score equals round(10 × (sum of the
weights of the true checks) / (sum of all ten weights), 1 decimal place),
where the ten weights are the fixed constants listed in the claim and their
total — the normalization denominator — is 9.8 (not 10.3). -/
theorem c1_score_formula_amended (m : InputMap) :
    (score_inputs m).score_out_of_10
      = pyRound1 (10 * specWeightSum ((score_inputs m).checks) / 9.8) ∧
    max_score = 9.8 := by
  constructor
  · have hp : (score_inputs m).score_out_of_10
        = scoreChecks ((score_inputs m).checks) := rfl
    rw [hp]
    unfold scoreChecks
    rw [rawScore_eq_spec, max_score_eq]
  · exact max_score_eq

/-- Claim C2: whenever every one of the five slots resolves to empty text,
all five presence checks and all four non-ambiguity quality heuristics are
false, `ambiguity_low` is true, and the suggestion list is exactly the five
missing-slot prompts in the fixed priority order, with no ambiguity
suggestion. -/
theorem c2_all_slots_empty_audit (m : InputMap)
    (hobj : resolveSlot objKeys m = "") (hctx : resolveSlot ctxKeys m = "")
    (hcons : resolveSlot consKeys m = "") (hex : resolveSlot exKeys m = "")
    (hfmt : resolveSlot fmtKeys m = "") :
    (score_inputs m).checks =
      { objective_present := false, context_present := false,
        constraints_present := false, examples_present := false,
        output_format_present := false, objective_quality := false,
        constraints_quality := false, examples_quality := false,
        format_quality := false, ambiguity_low := true } ∧
    (score_inputs m).suggestions =
      [sugObjectiveMissing, sugContextMissing, sugConstraintsMissing,
       sugExamplesMissing, sugFormatMissing] := by
  have hck : (score_inputs m).checks
      = mkChecks (resolveSlot objKeys m) (resolveSlot ctxKeys m)
          (resolveSlot consKeys m) (resolveSlot exKeys m) (resolveSlot fmtKeys m) := rfl
  have hsg : (score_inputs m).suggestions
      = suggestionsFor (mkChecks (resolveSlot objKeys m) (resolveSlot ctxKeys m)
          (resolveSlot consKeys m) (resolveSlot exKeys m) (resolveSlot fmtKeys m)) := rfl
  rw [hck, hsg, hobj, hctx, hcons, hex, hfmt]
  exact ⟨by decide, by decide⟩

/-- Witness for C2 at the empty mapping. -/
theorem c2_all_slots_empty_audit_witness :
    (resolveSlot objKeys emptyMap = "" ∧ resolveSlot ctxKeys emptyMap = "" ∧
     resolveSlot consKeys emptyMap = "" ∧ resolveSlot exKeys emptyMap = "" ∧
     resolveSlot fmtKeys emptyMap = "") ∧
    ((score_inputs emptyMap).checks =
      { objective_present := false, context_present := false,
        constraints_present := false, examples_present := false,
        output_format_present := false, objective_quality := false,
        constraints_quality := false, examples_quality := false,
        format_quality := false, ambiguity_low := true } ∧
     (score_inputs emptyMap).suggestions =
      [sugObjectiveMissing, sugContextMissing, sugConstraintsMissing,
       sugExamplesMissing, sugFormatMissing]) :=
  ⟨⟨rfl, rfl, rfl, rfl, rfl⟩, c2_all_slots_empty_audit emptyMap rfl rfl rfl rfl rfl⟩

/-- Claim C3: the source's marker list contains the encoding-corrupted
sequence U+201A U+00DC U+00ED instead of the arrow of "context → response";
on an examples text that literally contains the spec's marker
"context → response" (with the genuine arrow), the code computes
`examples_quality = false` although the claimed characterization makes it
true. -/
theorem c3_examples_marker_mojibake :
    resolveSlot exKeys arrowExampleMap = "context → response" ∧
    (score_inputs arrowExampleMap).checks.examples_quality = false ∧
    has_any "context → response" spec_example_markers = true :=
  ⟨by decide, by decide, by decide⟩

/-- Claim C4: for every field-value mapping the audit score lies in
[0, 10] and is an integer multiple of 0.1. -/
theorem c4_score_range_and_granularity (m : InputMap) :
    0 ≤ (score_inputs m).score_out_of_10 ∧ (score_inputs m).score_out_of_10 ≤ 10 ∧
      ∃ k : ℤ, (score_inputs m).score_out_of_10 = (k : ℚ) / 10 := by
  have hp : (score_inputs m).score_out_of_10 = scoreChecks ((score_inputs m).checks) := rfl
  rw [hp]
  exact scoreChecks_bounds _

/-- Claim C5: flipping any single check from false to true, holding the
other nine fixed, never decreases the aggregated score. -/
theorem c5_flip_check_monotone (c : Checks) :
    scoreChecks c ≤ scoreChecks { c with objective_present := true } ∧
    scoreChecks c ≤ scoreChecks { c with context_present := true } ∧
    scoreChecks c ≤ scoreChecks { c with constraints_present := true } ∧
    scoreChecks c ≤ scoreChecks { c with examples_present := true } ∧
    scoreChecks c ≤ scoreChecks { c with output_format_present := true } ∧
    scoreChecks c ≤ scoreChecks { c with objective_quality := true } ∧
    scoreChecks c ≤ scoreChecks { c with constraints_quality := true } ∧
    scoreChecks c ≤ scoreChecks { c with examples_quality := true } ∧
    scoreChecks c ≤ scoreChecks { c with format_quality := true } ∧
    scoreChecks c ≤ scoreChecks { c with ambiguity_low := true } := by
  obtain ⟨b1, b2, b3, b4, b5, b6, b7, b8, b9, b10⟩ := c
  refine ⟨?_, ?_, ?_, ?_, ?_, ?_, ?_, ?_, ?_, ?_⟩
  · apply scoreChecks_le_of_raw
    rw [rawScore_eq_spec, rawScore_eq_spec]
    cases b1 <;> simp [specWeightSum] <;> try linarith
  · apply scoreChecks_le_of_raw
    rw [rawScore_eq_spec, rawScore_eq_spec]
    cases b2 <;> simp [specWeightSum] <;> try linarith
  · apply scoreChecks_le_of_raw
    rw [rawScore_eq_spec, rawScore_eq_spec]
    cases b3 <;> simp [specWeightSum] <;> try linarith
  · apply scoreChecks_le_of_raw
    rw [rawScore_eq_spec, rawScore_eq_spec]
    cases b4 <;> simp [specWeightSum] <;> try linarith
  · apply scoreChecks_le_of_raw
    rw [rawScore_eq_spec, rawScore_eq_spec]
    cases b5 <;> simp [specWeightSum] <;> try linarith
  · apply scoreChecks_le_of_raw
    rw [rawScore_eq_spec, rawScore_eq_spec]
    cases b6 <;> simp [specWeightSum] <;> try linarith
  · apply scoreChecks_le_of_raw
    rw [rawScore_eq_spec, rawScore_eq_spec]
    cases b7 <;> simp [specWeightSum] <;> try linarith
  · apply scoreChecks_le_of_raw
    rw [rawScore_eq_spec, rawScore_eq_spec]
    cases b8 <;> simp [specWeightSum] <;> try linarith
  · apply scoreChecks_le_of_raw
    rw [rawScore_eq_spec, rawScore_eq_spec]
    cases b9 <;> simp [specWeightSum] <;> try linarith
  · apply scoreChecks_le_of_raw
    rw [rawScore_eq_spec, rawScore_eq_spec]
    cases b10 <;> simp [specWeightSum] <;> try linarith

/-- Claim C6: rendering CO-STAR with the empty mapping yields exactly six
"Not specified" segments, in declaration order, joined by blank lines. -/
theorem c6_costar_empty_render :
    generate_prompt "CO-STAR" emptyMap =
      some (String.intercalate "\n\n"
        ["**Context:** Not specified", "**Objective:** Not specified",
         "**Style:** Not specified", "**Tone:** Not specified",
         "**Audience:** Not specified", "**Response:** Not specified"]) := rfl

/-- Claim C7: an unknown framework identifier makes `generate_prompt`
signal the invalid-framework fault (`none`, the embedding of the Python
`KeyError`) for every field-value mapping; no document is produced. -/
theorem c7_unknown_framework_faults (fid : String) (m : InputMap)
    (h : fid ∉ FRAMEWORKS.map Prod.fst) :
    generate_prompt fid m = none := by
  have h1 : (fid == "CO-STAR") = false := by
    apply beq_eq_false_iff_ne.mpr
    intro e
    exact h (by rw [e]; decide)
  have h2 : (fid == "CRISPE") = false := by
    apply beq_eq_false_iff_ne.mpr
    intro e
    exact h (by rw [e]; decide)
  have h3 : (fid == "CLEAR") = false := by
    apply beq_eq_false_iff_ne.mpr
    intro e
    exact h (by rw [e]; decide)
  have h4 : (fid == "Basic (Context-Objective-Constraints-Examples-Output)") = false := by
    apply beq_eq_false_iff_ne.mpr
    intro e
    exact h (by rw [e]; decide)
  unfold generate_prompt
  simp [FRAMEWORKS, List.lookup, h1, h2, h3, h4]

/-- Witness for C7 at the unknown identifier "SCQA". -/
theorem c7_unknown_framework_faults_witness :
    "SCQA" ∉ FRAMEWORKS.map Prod.fst ∧ generate_prompt "SCQA" emptyMap = none :=
  ⟨by decide, c7_unknown_framework_faults "SCQA" emptyMap (by decide)⟩

/-- Claim C8: the auditor tolerates absent, empty, and None-valued slots —
the fault-capable embedding (where stripping a `None` would raise) always
returns `Except.ok` and agrees with the total auditor on every mapping. -/
theorem c8_auditor_never_faults (m : InputMap) :
    score_inputsE m = Except.ok (score_inputs m) := by
  simp only [score_inputsE, resolveSlotE_ok]
  rfl

/-- Claim C9: a present but whitespace-only value on an earlier alias
blocks fallback to later aliases: a whitespace-only "Constraints" makes the
constraints slot resolve empty (so `constraints_present` is false)
regardless of "Capacity/Constraints" or "Restrictions", and a
whitespace-only "Context" likewise blocks "Insight/Context". -/
theorem c9_whitespace_blocks_aliases (m : InputMap) (s t : String) :
    (m "Constraints" = some s → s ≠ "" → (∀ c ∈ s.data, pyIsSpace c = true) →
      resolveSlot consKeys m = "" ∧
      (score_inputs m).checks.constraints_present = false) ∧
    (m "Context" = some t → t ≠ "" → (∀ c ∈ t.data, pyIsSpace c = true) →
      resolveSlot ctxKeys m = "" ∧
      (score_inputs m).checks.context_present = false) := by
  constructor
  · intro hm hs hsp
    have hchain : chainGet consKeys m = some s := by
      have hstep : chainGet consKeys m
          = pyOrStr (m "Constraints")
              (pyOrStr (m "Capacity/Constraints")
                (pyOrStr (m "Restrictions") (some ""))) := rfl
      rw [hstep, hm]
      simp [pyOrStr, hs]
    have hres : resolveSlot consKeys m = "" := by
      unfold resolveSlot
      rw [hchain]
      exact pyStrip_eq_empty_of_space s hsp
    refine ⟨hres, ?_⟩
    have hck : (score_inputs m).checks
        = mkChecks (resolveSlot objKeys m) (resolveSlot ctxKeys m)
            (resolveSlot consKeys m) (resolveSlot exKeys m) (resolveSlot fmtKeys m) := rfl
    rw [hck, hres]
    simp [mkChecks]
  · intro hm ht htp
    have hchain : chainGet ctxKeys m = some t := by
      have hstep : chainGet ctxKeys m
          = pyOrStr (m "Context") (pyOrStr (m "Insight/Context") (some "")) := rfl
      rw [hstep, hm]
      simp [pyOrStr, ht]
    have hres : resolveSlot ctxKeys m = "" := by
      unfold resolveSlot
      rw [hchain]
      exact pyStrip_eq_empty_of_space t htp
    refine ⟨hres, ?_⟩
    have hck : (score_inputs m).checks
        = mkChecks (resolveSlot objKeys m) (resolveSlot ctxKeys m)
            (resolveSlot consKeys m) (resolveSlot exKeys m) (resolveSlot fmtKeys m) := rfl
    rw [hck, hres]
    simp [mkChecks]

/-- Witness for C9 at a mapping with whitespace-only "Constraints" and
"Context" and non-whitespace later aliases. -/
theorem c9_whitespace_blocks_aliases_witness :
    (resolveSlot consKeys whitespaceBlockMap = "" ∧
     (score_inputs whitespaceBlockMap).checks.constraints_present = false) ∧
    (resolveSlot ctxKeys whitespaceBlockMap = "" ∧
     (score_inputs whitespaceBlockMap).checks.context_present = false) := by
  obtain ⟨p1, p2⟩ := c9_whitespace_blocks_aliases whitespaceBlockMap " " "\t"
  exact ⟨p1 rfl (by decide) (by decide), p2 rfl (by decide) (by decide)⟩

/-- Claim C10: the rendered document depends only on the values of the
chosen framework's own labels: two mappings agreeing on every label of a
valid framework render identically. -/
theorem c10_render_depends_only_on_labels (fid : String) (fields : List String)
    (m1 m2 : InputMap) (hf : FRAMEWORKS.lookup fid = some fields)
    (h : ∀ l ∈ fields, m1 l = m2 l) :
    generate_prompt fid m1 = generate_prompt fid m2 := by
  have hx : ∀ mm : InputMap, generate_prompt fid mm
      = some (String.intercalate "\n\n" (fields.map (fun field =>
          let val := pyStrip ((mm field).getD "")
          let val2 := if val = "" then "Not specified" else val
          "**" ++ field ++ ":** " ++ val2))) := by
    intro mm
    unfold generate_prompt
    rw [hf]
  rw [hx m1, hx m2]
  apply congrArg
  apply congrArg
  apply List.map_congr_left
  intro a ha
  rw [h a ha]

/-- Witness for C10: two mappings agreeing on all six CO-STAR labels but
differing on "Examples" render the same CO-STAR document. -/
theorem c10_render_depends_only_on_labels_witness :
    FRAMEWORKS.lookup "CO-STAR"
      = some ["Context", "Objective", "Style", "Tone", "Audience", "Response"] ∧
    (∀ l ∈ ["Context", "Objective", "Style", "Tone", "Audience", "Response"],
      agreeMapA l = agreeMapB l) ∧
    generate_prompt "CO-STAR" agreeMapA = generate_prompt "CO-STAR" agreeMapB :=
  ⟨rfl, by decide,
    c10_render_depends_only_on_labels "CO-STAR"
      ["Context", "Objective", "Style", "Tone", "Audience", "Response"]
      agreeMapA agreeMapB rfl (by decide)⟩

end PromptApp
